import Mathlib

/-!
Shallow embedding of the `jr099/tetris` core (modules `tetromino.py`,
`board.py`, `scores.py`, `profiles.py`, `game.py`) and proofs about it.
Python's in-place mutation is rendered as explicit state passing; Python
integers are `Int` (all arithmetic here is unbounded); Python's `%` on a
positive modulus agrees with `Int.emod`; `//` on non-negative operands
agrees with `Nat` division.
-/

namespace Tetris

/-- A (column, row) pair, as in the Python `Coordinate = Tuple[int, int]`. -/
abbrev Coordinate := Int × Int

/-! ## tetromino.py -/

/-- `Tetromino` dataclass: a name, the tuple of rotation states (each a tuple
of relative cell offsets), and a display color. -/
structure Tetromino where
  name : String
  rotations : List (List Coordinate)
  color : String := ""
deriving DecidableEq, Repr

/-- `TetrominoState` dataclass: a tetromino together with a rotation index
(always already reduced modulo the rotation count by `Tetromino.rotated`). -/
structure TetrominoState where
  tetromino : Tetromino
  rotation_index : Nat
deriving DecidableEq, Repr

/-- `TetrominoState.blocks`: the offset list of the selected rotation state. -/
def TetrominoState.blocks (s : TetrominoState) : List Coordinate :=
  s.tetromino.rotations.getD s.rotation_index []

/-- `Tetromino.rotated`: `index = rotation_index % len(self.rotations)`;
Python `%` with a positive modulus is `Int.emod`, whose result is then
non-negative, so `toNat` is lossless. -/
def Tetromino.rotated (t : Tetromino) (rotation_index : Int) : TetrominoState :=
  ⟨t, (rotation_index % (t.rotations.length : Int)).toNat⟩

/-- The `I` piece. -/
def tetI : Tetromino :=
  { name := "I"
    rotations := [
      [(-2, 0), (-1, 0), (0, 0), (1, 0)],
      [(0, -1), (0, 0), (0, 1), (0, 2)]]
    color := "cyan" }

/-- The `O` piece. -/
def tetO : Tetromino :=
  { name := "O"
    rotations := [
      [(0, 0), (1, 0), (0, 1), (1, 1)]]
    color := "yellow" }

/-- The `T` piece. -/
def tetT : Tetromino :=
  { name := "T"
    rotations := [
      [(-1, 0), (0, 0), (1, 0), (0, 1)],
      [(0, -1), (0, 0), (1, 0), (0, 1)],
      [(0, -1), (-1, 0), (0, 0), (1, 0)],
      [(0, -1), (-1, 0), (0, 0), (0, 1)]]
    color := "purple" }

/-- The `S` piece. -/
def tetS : Tetromino :=
  { name := "S"
    rotations := [
      [(0, 0), (1, 0), (-1, 1), (0, 1)],
      [(0, -1), (0, 0), (1, 0), (1, 1)]]
    color := "green" }

/-- The `Z` piece. -/
def tetZ : Tetromino :=
  { name := "Z"
    rotations := [
      [(-1, 0), (0, 0), (0, 1), (1, 1)],
      [(1, -1), (0, 0), (1, 0), (0, 1)]]
    color := "red" }

/-- The `J` piece. -/
def tetJ : Tetromino :=
  { name := "J"
    rotations := [
      [(-1, 0), (0, 0), (1, 0), (-1, 1)],
      [(0, -1), (0, 0), (0, 1), (1, -1)],
      [(1, -1), (-1, 0), (0, 0), (1, 0)],
      [(-1, 1), (0, -1), (0, 0), (0, 1)]]
    color := "blue" }

/-- The `L` piece. -/
def tetL : Tetromino :=
  { name := "L"
    rotations := [
      [(-1, 0), (0, 0), (1, 0), (1, 1)],
      [(0, -1), (0, 0), (0, 1), (1, 1)],
      [(-1, -1), (-1, 0), (0, 0), (1, 0)],
      [(-1, -1), (0, -1), (0, 0), (0, 1)]]
    color := "orange" }

/-- `ALL_TETROMINOES = (I, O, T, S, Z, J, L)`. -/
def ALL_TETROMINOES : List Tetromino :=
  [tetI, tetO, tetT, tetS, tetZ, tetJ, tetL]

/-! ## board.py -/

/-- A board cell: `None` or a piece-shape identifier string. -/
abbrev Cell := Option String

/-- `Board` dataclass. `__post_init__` builds an all-empty `height × width`
grid; `emptyGrid` below reproduces it, but the structure itself (like the
Python attributes, which tests mutate directly) allows any grid value. -/
structure Board where
  width : Nat := 10
  height : Nat := 20
  grid : List (List Cell)
deriving DecidableEq, Repr

/-- The grid `__post_init__` builds: `height` rows of `width` empty cells. -/
def emptyGrid (width height : Nat) : List (List Cell) :=
  List.replicate height (List.replicate width (none : Cell))

/-- `Board(width, height)`: the dataclass constructor plus `__post_init__`. -/
def Board.make (width height : Nat) : Board :=
  { width := width, height := height, grid := emptyGrid width height }

/-- `Board.reset`: sets every cell of the grid to `None`; for a grid of
`height` rows of `width` cells (the only shapes the in-place loops accept
without an index error) the result is the all-empty grid. -/
def Board.reset (b : Board) : Board :=
  { b with grid := emptyGrid b.width b.height }

/-- Read `self.grid[y][x]` (callers establish `0 ≤ x < width`, `0 ≤ y`). -/
def Board.cellAt (b : Board) (x y : Int) : Cell :=
  (b.grid.getD y.toNat []).getD x.toNat none

/-- `Board.can_place`: every block must be inside the horizontal bounds,
strictly above `height`, and (when its row is non-negative) on an empty
cell. -/
def Board.can_place (b : Board) (blocks : List Coordinate) : Bool :=
  blocks.all fun p =>
    if p.1 < 0 || (b.width : Int) ≤ p.1 then false
    else if (b.height : Int) ≤ p.2 then false
    else if 0 ≤ p.2 && (b.cellAt p.1 p.2).isSome then false
    else true

/-- Write `value` into `grid[y][x]`. -/
def setCell (grid : List (List Cell)) (x y : Nat) (value : Cell) :
    List (List Cell) :=
  grid.set y ((grid.getD y []).set x value)

/-- `Board.lock_piece`: writes `value` into every block cell with `y ≥ 0`
(blocks with `y < 0` are skipped). -/
def Board.lock_piece (b : Board) (blocks : List Coordinate) (value : String) :
    Board :=
  { b with
    grid := blocks.foldl
      (fun g p => if p.2 < 0 then g else setCell g p.1.toNat p.2.toNat (some value))
      b.grid }

/-- `Board.clear_full_lines`: keep the rows that still have an empty cell,
count `cleared = height - len(remaining)`, and when nonzero prepend that
many all-empty rows; returns the new board and the count. -/
def Board.clear_full_lines (b : Board) : Board × Nat :=
  let remaining := b.grid.filter fun row => row.any fun cell => cell.isNone
  let cleared := b.height - remaining.length
  if cleared ≠ 0 then
    ({ b with grid := List.replicate cleared (List.replicate b.width (none : Cell)) ++ remaining },
      cleared)
  else (b, cleared)

/-! ## profiles.py

`ProfileManager` wraps the JSON document `self._data`; the file load/save
calls are I/O glue around it, so the embedding carries the document itself
(`ProfileStore`). `datetime.utcnow()` is an ambient input, passed in as the
`now : String` argument of the operations that call `_now()`. -/

/-- `Profile` dataclass. -/
structure Profile where
  name : String
  created_at : String
  last_played : Option String := none
  games_played : Int := 0
  best_score : Int := 0
deriving DecidableEq, Repr

/-- One element of the persisted `scores` array. -/
structure ScoreEntry where
  profile : String
  score : Int
  lines : Int
  played_at : String
deriving DecidableEq, Repr

/-- The persisted JSON document: `active_profile`, `profiles` (an
insertion-ordered mapping, rendered as an association list with unique
keys), `scores`. -/
structure ProfileStore where
  active_profile : Option String := none
  profiles : List (String × Profile) := []
  scores : List ScoreEntry := []
deriving DecidableEq, Repr

/-- Dictionary lookup `self._data["profiles"].get(name)`. -/
def lookupProfile (ps : List (String × Profile)) (name : String) :
    Option Profile :=
  (ps.find? fun kv => kv.1 == name).map Prod.snd

/-- Dictionary assignment `self._data["profiles"][name] = ...` for a key
that is already present: the entry keeps its position. -/
def updateProfile (ps : List (String × Profile)) (name : String)
    (p : Profile) : List (String × Profile) :=
  ps.map fun kv => if kv.1 == name then (kv.1, p) else kv

/-- `ProfileManager.get_profile`. -/
def ProfileStore.get_profile (store : ProfileStore) (name : String) :
    Option Profile :=
  lookupProfile store.profiles name

/-- `ProfileManager.create_profile`: raises (here: returns an error message
alongside the unchanged document) if the name is taken; otherwise inserts
the new profile, sets `active_profile` to the name, and saves. -/
def ProfileStore.create_profile (store : ProfileStore) (name : String)
    (now : String) : ProfileStore × Option String :=
  if (lookupProfile store.profiles name).isSome then
    (store, some ("Le profil '" ++ name ++ "' existe déjà"))
  else
    let profile : Profile := { name := name, created_at := now }
    ({ store with
        profiles := store.profiles ++ [(name, profile)]
        active_profile := some name }, none)

/-- `ProfileManager.record_game`: raises `ValueError` (here: an error
message, with the document untouched since the raise precedes every
mutation) for an unknown profile; otherwise bumps `games_played`, stamps
`last_played`, raises `best_score` to the new score when larger, stores the
updated profile back and appends one score entry. -/
def ProfileStore.record_game (store : ProfileStore) (profile_name : String)
    (score lines : Int) (now : String) : ProfileStore × Option String :=
  match store.get_profile profile_name with
  | none => (store, some ("Profil inconnu: " ++ profile_name))
  | some profile =>
    let profile' : Profile :=
      { profile with
        games_played := profile.games_played + 1
        last_played := some now
        best_score := if profile.best_score < score then score else profile.best_score }
    ({ store with
        profiles := updateProfile store.profiles profile_name profile'
        scores := store.scores ++
          [{ profile := profile_name, score := score, lines := lines, played_at := now }] },
      none)

/-! ## scores.py -/

/-- `ScoreSnapshot` dataclass. -/
structure ScoreSnapshot where
  score : Int
  lines : Int
deriving DecidableEq, Repr

/-- Class constant `combo_bonus = 50`. -/
def combo_bonus : Int := 50

/-- Class constant `soft_drop_bonus = 1`. -/
def soft_drop_bonus : Int := 1

/-- Class constant `hard_drop_bonus = 2`. -/
def hard_drop_bonus : Int := 2

/-- `self.line_scores.get(lines, lines * 100)` with
`line_scores = {1: 100, 2: 300, 3: 500, 4: 800}`. -/
def line_score (lines : Int) : Int :=
  if lines = 1 then 100
  else if lines = 2 then 300
  else if lines = 3 then 500
  else if lines = 4 then 800
  else lines * 100

/-- `ScoreManager`: the mutable scoring fields plus the profile document its
`profile_manager` collaborator wraps. -/
structure ScoreManager where
  profile_manager : ProfileStore := {}
  score : Int := 0
  total_lines : Int := 0
  combo_streak : Int := 0
  active_profile : Option String := none
deriving DecidableEq, Repr

/-- `ScoreManager.reset` (also run by `__init__`). -/
def ScoreManager.reset (s : ScoreManager) : ScoreManager :=
  { s with score := 0, total_lines := 0, combo_streak := 0, active_profile := none }

/-- `ScoreManager.attach_profile`. -/
def ScoreManager.attach_profile (s : ScoreManager) (name : String) :
    ScoreManager :=
  { s with active_profile := some name }

/-- `ScoreManager.add_soft_drop`. -/
def ScoreManager.add_soft_drop (s : ScoreManager) (cells : Int) :
    ScoreManager :=
  if cells ≤ 0 then s
  else { s with score := s.score + cells * soft_drop_bonus }

/-- `ScoreManager.add_hard_drop`. -/
def ScoreManager.add_hard_drop (s : ScoreManager) (cells : Int) :
    ScoreManager :=
  if cells ≤ 0 then s
  else { s with score := s.score + cells * hard_drop_bonus }

/-- `ScoreManager.record_line_clear`: returns the updated manager and the
gained points (the Python return value). -/
def ScoreManager.record_line_clear (s : ScoreManager) (lines : Int) :
    ScoreManager × Int :=
  if lines ≤ 0 then
    ({ s with combo_streak := 0 }, 0)
  else
    let streak := s.combo_streak + 1
    let base := line_score lines
    let combo_points := (streak - 1) * combo_bonus
    let gained := base + combo_points
    ({ s with
        combo_streak := streak
        total_lines := s.total_lines + lines
        score := s.score + gained }, gained)

/-- Outcome of `ScoreManager.finalize`: `RuntimeError` when no profile is
attached, `ValueError` escaping from `record_game` for an unknown profile,
or the snapshot. -/
inductive FinalizeResult where
  | runtimeError
  | valueError
  | ok (snapshot : ScoreSnapshot)
deriving DecidableEq, Repr

/-- `ScoreManager.finalize`: both error paths raise before any mutation, so
they carry the manager through unchanged. -/
def ScoreManager.finalize (s : ScoreManager) (now : String) :
    ScoreManager × FinalizeResult :=
  match s.active_profile with
  | none => (s, .runtimeError)
  | some name =>
    let snapshot : ScoreSnapshot := { score := s.score, lines := s.total_lines }
    match s.profile_manager.record_game name snapshot.score snapshot.lines now with
    | (store, some _) => ({ s with profile_manager := store }, .valueError)
    | (store, none) => ({ s with profile_manager := store }, .ok snapshot)

/-! ## game.py -/

/-- `ActivePiece` dataclass. -/
structure ActivePiece where
  state : TetrominoState
  origin : Coordinate
deriving DecidableEq, Repr

/-- `ActivePiece.blocks`: absolute cells of the piece. -/
def ActivePiece.blocks (p : ActivePiece) : List Coordinate :=
  p.state.blocks.map fun d => (p.origin.1 + d.1, p.origin.2 + d.2)

/-- `Game` state. `random.Random` is an ambient source of shuffles; the
embedding pre-draws them as `rng`, a stream of bag refills consumed in
order (each entry standing for `shuffle(list(ALL_TETROMINOES))`). -/
structure Game where
  board : Board
  score_manager : ScoreManager := {}
  piece_sequence : Option (List Tetromino) := none
  rng : List (List Tetromino) := []
  bag : List Tetromino := []
  active : Option ActivePiece := none
  game_over : Bool := false
deriving DecidableEq, Repr

/-- `Game.__init__`: note `list(piece_sequence) if piece_sequence else None`
— an *empty* sequence is falsy in Python and collapses to `None` (bag
mode). -/
def Game.init (board : Board) (score_manager : ScoreManager)
    (piece_sequence : Option (List Tetromino))
    (rng : List (List Tetromino)) : Game :=
  { board := board
    score_manager := score_manager
    piece_sequence := match piece_sequence with
      | some s => if s.isEmpty then none else some s
      | none => none
    rng := rng }

/-- The `if not self._bag:` refill of `_draw_from_bag`:
`self._bag = shuffle(list(ALL_TETROMINOES))`, the shuffle outcome taken
from the pre-drawn `rng` stream (with the stream as permutations of the
catalog, the fallback arm for an exhausted stream is never reached). -/
def Game.refill_bag (g : Game) : Game :=
  if g.bag.isEmpty then
    match g.rng with
    | r :: rs => { g with bag := r, rng := rs }
    | [] => { g with bag := ALL_TETROMINOES }
  else g

/-- `_draw_from_bag`: refill when empty, then `self._bag.pop(0)`. A refilled
bag holds the 7 catalog pieces, so the `[]` arm (Python would raise an
`IndexError` there) is unreachable for faithful `rng` streams. -/
def Game.draw_from_bag (g : Game) : Option Tetromino × Game :=
  let g' := g.refill_bag
  match g'.bag with
  | [] => (none, g')
  | t :: rest => (some t, { g' with bag := rest })

/-- `_draw_from_sequence` / `_next_tetromino`: `none` is the
`StopIteration` of an exhausted scripted sequence. -/
def Game.next_tetromino (g : Game) : Option Tetromino × Game :=
  match g.piece_sequence with
  | some seq =>
    match seq with
    | [] => (none, g)
    | t :: rest => (some t, { g with piece_sequence := some rest })
  | none => g.draw_from_bag

/-- `Game._spawn_next_piece`. -/
def Game.spawn_next_piece (g : Game) : Game :=
  match g.next_tetromino with
  | (none, g') => { g' with game_over := true, active := none }
  | (some tetromino, g') =>
    let state := tetromino.rotated 0
    let origin : Coordinate := (((g'.board.width / 2 : Nat) : Int), 0)
    let active : ActivePiece := { state := state, origin := origin }
    if !(g'.board.can_place active.blocks) then
      { g' with game_over := true, active := none }
    else
      { g' with active := some active }

/-- `Game.start`: `if profile_name:` is Python truthiness, so an empty
string does not attach. -/
def Game.start (g : Game) (profile_name : Option String) : Game :=
  let sm := g.score_manager.reset
  let sm := match profile_name with
    | some name => if name = "" then sm else sm.attach_profile name
    | none => sm
  Game.spawn_next_piece
    { g with
      board := g.board.reset
      score_manager := sm
      bag := []
      game_over := false }

/-- `Game.move`: returns the new game and the Python boolean result. -/
def Game.move (g : Game) (dx dy : Int) : Game × Bool :=
  match g.active with
  | none => (g, false)
  | some active =>
    if g.game_over then (g, false)
    else
      let new_origin : Coordinate := (active.origin.1 + dx, active.origin.2 + dy)
      let new_blocks := active.state.blocks.map fun d =>
        (new_origin.1 + d.1, new_origin.2 + d.2)
      if !(g.board.can_place new_blocks) then (g, false)
      else
        let g' := if 0 < dy then
            { g with score_manager := g.score_manager.add_soft_drop 1 }
          else g
        ({ g' with active := some { state := active.state, origin := new_origin } },
          true)

/-- `Game.rotate`. -/
def Game.rotate (g : Game) (clockwise : Bool) : Game × Bool :=
  match g.active with
  | none => (g, false)
  | some active =>
    if g.game_over then (g, false)
    else
      let delta : Int := if clockwise then 1 else -1
      let new_state :=
        active.state.tetromino.rotated ((active.state.rotation_index : Int) + delta)
      let new_blocks := new_state.blocks.map fun d =>
        (active.origin.1 + d.1, active.origin.2 + d.2)
      if !(g.board.can_place new_blocks) then (g, false)
      else ({ g with active := some { state := new_state, origin := active.origin } },
        true)

/-- `Game.lock_piece`. -/
def Game.lock_piece (g : Game) : Game :=
  match g.active with
  | none => g
  | some active =>
    let board := g.board.lock_piece active.blocks active.state.tetromino.name
    let (board, lines) := board.clear_full_lines
    let (sm, _) := g.score_manager.record_line_clear (lines : Int)
    Game.spawn_next_piece
      { g with board := board, score_manager := sm, active := none }

/-- The `while self.move(0, 1): distance += 1` loop of `Game.hard_drop`.
`fuel` only bounds the iteration count to keep the definition total; every
successful step moves the piece one row down and `can_place` keeps each
catalog piece's rows below `height`, so `height + 4` iterations are never
exhausted by a game whose piece comes from the catalog. -/
def Game.hard_drop_loop : Nat → Game → Nat → Game × Nat
  | 0, g, distance => (g, distance)
  | fuel + 1, g, distance =>
    match g.move 0 1 with
    | (g', true) => Game.hard_drop_loop fuel g' (distance + 1)
    | (_, false) => (g, distance)

/-- `Game.hard_drop`. -/
def Game.hard_drop (g : Game) : Game :=
  if g.active.isNone || g.game_over then g
  else
    let (g', distance) := Game.hard_drop_loop (g.board.height + 4) g 0
    Game.lock_piece
      { g' with score_manager := g'.score_manager.add_hard_drop (distance : Int) }

/-- `Game.tick`. -/
def Game.tick (g : Game) : Game :=
  if g.active.isNone || g.game_over then g
  else
    match g.move 0 1 with
    | (g', true) => g'
    | (g', false) => g'.lock_piece

/-- `Game.finalize`: runs the score manager's finalize when the game is over
or no piece is active; the `RuntimeError` is swallowed, and the
`ValueError` path mutates nothing before escaping, so in both cases only
the score manager's document (possibly) changes. -/
def Game.finalize (g : Game) (now : String) : Game :=
  if g.game_over || g.active.isNone then
    { g with score_manager := (g.score_manager.finalize now).1 }
  else g

/-- One externally drivable operation of the Game Controller. -/
inductive Op where
  | start (profile : Option String)
  | move (dx dy : Int)
  | rotate (clockwise : Bool)
  | tick
  | hardDrop
  | lockPiece
  | finalize (now : String)

/-- Apply one operation. -/
def Game.apply (g : Game) : Op → Game
  | .start p => g.start p
  | .move dx dy => (g.move dx dy).1
  | .rotate cw => (g.rotate cw).1
  | .tick => g.tick
  | .hardDrop => g.hard_drop
  | .lockPiece => g.lock_piece
  | .finalize now => g.finalize now

/-- Run a sequence of operations. -/
def Game.run (g : Game) (ops : List Op) : Game :=
  ops.foldl Game.apply g

/-! ## Concrete fixtures used by witnesses and counterexamples -/

/-- A small 4×3 game scripted to deal two O pieces; `start` spawns the
first O at column 2, row 0. -/
def cexGame : Game :=
  (Game.init (Board.make 4 3) {} (some [tetO, tetO]) []).start none

/-- The resting place of `cexGame`'s first O after its hard-drop loop:
one row below the spawn origin. -/
def cexActive : ActivePiece :=
  { state := { tetromino := tetO, rotation_index := 0 }, origin := (2, 1) }

/-- A 4×3 board whose top-center cell (2, 0) is occupied. -/
def occBoard : Board :=
  { width := 4
    height := 3
    grid := [[none, none, some "X", none],
      [none, none, none, none],
      [none, none, none, none]] }

/-- A game over `occBoard` scripted to deal one O piece. -/
def c6Game : Game :=
  Game.init occBoard {} (some [tetO]) []

/-- `c6Game` after its piece is drawn: only the scripted sequence shrank. -/
def c6GameDrawn : Game :=
  { c6Game with piece_sequence := some [] }

/-- A 2×2 board whose top row is full and bottom row is not. -/
def bC4 : Board :=
  { width := 2
    height := 2
    grid := [[some "X", some "X"], [none, some "X"]] }

/-- A profile named "Alice". -/
def aliceProfile : Profile :=
  { name := "Alice", created_at := "t0" }

/-- A document holding only the profile "Alice". -/
def aliceStore : ProfileStore :=
  { profiles := [("Alice", aliceProfile)] }

/-- The state-machine invariant of claim C7: the game-over state has no
active piece. -/
def GameInv (g : Game) : Prop :=
  g.game_over = true → g.active = none

/-! ## Basic lemmas about `Game.move` -/

/-- A move either fails leaving the game untouched, or reports success. -/
theorem move_cases (g : Game) (dx dy : Int) :
    g.move dx dy = (g, false) ∨ (g.move dx dy).2 = true := by
  unfold Game.move
  cases g.active
  · exact Or.inl rfl
  · dsimp only
    split
    · exact Or.inl rfl
    · split
      · exact Or.inl rfl
      · exact Or.inr rfl

/-- A failed move returns the game unchanged. -/
theorem move_fail_eq (g : Game) (dx dy : Int) (h : (g.move dx dy).2 = false) :
    (g.move dx dy).1 = g := by
  rcases move_cases g dx dy with hc | hc
  · rw [hc]
  · rw [hc] at h; cases h

/-- `move` never changes the board. -/
theorem move_board (g : Game) (dx dy : Int) :
    (g.move dx dy).1.board = g.board := by
  unfold Game.move
  cases g.active
  · rfl
  · dsimp only
    split
    · rfl
    · split
      · rfl
      · split <;> rfl

/-- `move` never changes the game-over flag. -/
theorem move_game_over (g : Game) (dx dy : Int) :
    (g.move dx dy).1.game_over = g.game_over := by
  unfold Game.move
  cases g.active
  · rfl
  · dsimp only
    split
    · rfl
    · split
      · rfl
      · split <;> rfl

/-- With no active piece, `move` fails immediately. -/
theorem move_active_none (g : Game) (dx dy : Int) (h : g.active = none) :
    g.move dx dy = (g, false) := by
  unfold Game.move
  rw [h]

/-- Conditional equation for `move` when a piece is active. -/
theorem move_some_eq (g : Game) (dx dy : Int) (a : ActivePiece)
    (h : g.active = some a) :
    g.move dx dy =
      (if g.game_over then (g, false)
      else
        let new_origin : Coordinate := (a.origin.1 + dx, a.origin.2 + dy)
        let new_blocks := a.state.blocks.map fun d =>
          (new_origin.1 + d.1, new_origin.2 + d.2)
        if !(g.board.can_place new_blocks) then (g, false)
        else
          let g' := if 0 < dy then
              { g with score_manager := g.score_manager.add_soft_drop 1 }
            else g
          ({ g' with active := some { state := a.state, origin := new_origin } },
            true)) := by
  unfold Game.move
  rw [h]

/-- A successful move implies the guard passed: a piece was active and the
game was not over. -/
theorem move_success_guard (g : Game) (dx dy : Int)
    (h : (g.move dx dy).2 = true) :
    g.active.isSome = true ∧ g.game_over = false := by
  rcases hA : g.active with _ | a
  · rw [move_active_none g dx dy hA] at h; cases h
  · refine ⟨rfl, ?_⟩
    by_cases hO : g.game_over = true
    · rw [move_some_eq g dx dy a hA, if_pos hO] at h; cases h
    · exact eq_false_of_ne_true hO

/-- A successful downward move credits exactly the 1-point soft-drop bonus. -/
theorem move_one_score (g : Game) (h : (g.move 0 1).2 = true) :
    (g.move 0 1).1.score_manager.score = g.score_manager.score + 1 := by
  rcases hA : g.active with _ | a
  · rw [move_active_none g 0 1 hA] at h; cases h
  · rw [move_some_eq g 0 1 a hA] at h ⊢
    by_cases hO : g.game_over = true
    · rw [if_pos hO] at h; cases h
    · rw [if_neg hO] at h ⊢
      dsimp only at h ⊢
      split at h
      · cases h
      · rename_i hcp
        rw [if_neg hcp]
        dsimp only
        rw [if_pos (show (0 : Int) < 1 by norm_num)]
        show (g.score_manager.add_soft_drop 1).score = g.score_manager.score + 1
        unfold ScoreManager.add_soft_drop
        rw [if_neg (show ¬((1 : Int) ≤ 0) by norm_num)]
        show g.score_manager.score + 1 * soft_drop_bonus = g.score_manager.score + 1
        norm_num [soft_drop_bonus]

/-! ## Claim C3: `record_line_clear` semantics and the combo sequence -/

/-- C3: `record_line_clear(n)` resets the streak and gains 0 for `n ≤ 0`;
for `n ≥ 1` it gains `base(n) + streak_before × 50` (base = `line_score`,
i.e. 100/300/500/800 for 1–4 and `n × 100` otherwise), increments the
streak and accumulates `n` lines; and on a fresh manager the sequence
`1, 2, 0` yields gains 100, 350, 0 with final score 450 and streak 0. -/
theorem claim_C3 (s : ScoreManager) (n : Int) :
    (n ≤ 0 → s.record_line_clear n = ({ s with combo_streak := 0 }, 0)) ∧
    (1 ≤ n →
      (s.record_line_clear n).2 = line_score n + s.combo_streak * 50 ∧
      (s.record_line_clear n).1.combo_streak = s.combo_streak + 1 ∧
      (s.record_line_clear n).1.total_lines = s.total_lines + n ∧
      (s.record_line_clear n).1.score = s.score + (s.record_line_clear n).2) ∧
    ((({} : ScoreManager).record_line_clear 1).2 = 100 ∧
      (((({} : ScoreManager).record_line_clear 1).1.record_line_clear 2)).2 = 350 ∧
      ((((({} : ScoreManager).record_line_clear 1).1.record_line_clear 2)).1.record_line_clear 0).2 = 0 ∧
      ((((({} : ScoreManager).record_line_clear 1).1.record_line_clear 2)).1.record_line_clear 0).1.score = 450 ∧
      ((((({} : ScoreManager).record_line_clear 1).1.record_line_clear 2)).1.record_line_clear 0).1.combo_streak = 0) := by
  refine ⟨fun h => ?_, fun h => ?_, by decide⟩
  · unfold ScoreManager.record_line_clear
    rw [if_pos h]
  · have h0 : ¬(n ≤ 0) := by omega
    unfold ScoreManager.record_line_clear
    rw [if_neg h0]
    refine ⟨?_, rfl, rfl, rfl⟩
    show line_score n + (s.combo_streak + 1 - 1) * combo_bonus
        = line_score n + s.combo_streak * 50
    rw [combo_bonus]
    ring

/-- C3 witness: the general theorem applied at concrete inputs. -/
theorem claim_C3_witness :
    ({} : ScoreManager).record_line_clear 0
      = ({ ({} : ScoreManager) with combo_streak := 0 }, 0) ∧
    (({} : ScoreManager).record_line_clear 4).2
      = line_score 4 + ({} : ScoreManager).combo_streak * 50 :=
  ⟨(claim_C3 {} 0).1 (by norm_num),
    ((claim_C3 {} 4).2.1 (by norm_num)).1⟩

/-! ## Claim C5: a failed move mutates nothing -/

/-- C5: whenever `move(dx, dy)` returns failure — no active piece, game
over, or illegal target cells — the board, the active piece and the score
state are unchanged. -/
theorem claim_C5 (g : Game) (dx dy : Int) (h : (g.move dx dy).2 = false) :
    (g.move dx dy).1.board = g.board ∧
    (g.move dx dy).1.active = g.active ∧
    (g.move dx dy).1.score_manager = g.score_manager := by
  rw [move_fail_eq g dx dy h]
  exact ⟨rfl, rfl, rfl⟩

/-- C5 witness: a fresh, never-started game has no active piece, so the
move fails and changes nothing. -/
theorem claim_C5_witness :
    ((Game.init (Board.make 4 3) {} none []).move 0 1).1.board
      = (Game.init (Board.make 4 3) {} none []).board ∧
    ((Game.init (Board.make 4 3) {} none []).move 0 1).1.active
      = (Game.init (Board.make 4 3) {} none []).active ∧
    ((Game.init (Board.make 4 3) {} none []).move 0 1).1.score_manager
      = (Game.init (Board.make 4 3) {} none []).score_manager :=
  claim_C5 (Game.init (Board.make 4 3) {} none []) 0 1 (by decide)

/-! ## Claim C8: rotation indices are taken modulo the state count -/

/-- Reducing the index modulo the rotation count does not change the
state: `(i % n) % n = i % n`. -/
theorem rotated_emod (t : Tetromino) (i : Int) :
    t.rotated (i % (t.rotations.length : Int)) = t.rotated i := by
  unfold Tetromino.rotated
  rw [Int.emod_emod_of_dvd _ dvd_rfl]

/-- When the rotation count divides 4, adding 4 to the index is invisible. -/
theorem rotated_add_four (t : Tetromino) (i : Int)
    (h : (t.rotations.length : Int) ∣ 4) :
    t.rotated (i + 4) = t.rotated i := by
  unfold Tetromino.rotated
  obtain ⟨k, hk⟩ := h
  rw [hk, Int.add_mul_emod_self_left]

/-- C8: for every catalog shape and integer rotation index, the state for
`i` equals the state for `i mod stateCount`; the state for `i + 4` equals
the state for `i` (each state count 1, 2 or 4 divides 4); and every
rotation of the O piece is its single state. -/
theorem claim_C8 (t : Tetromino) (ht : t ∈ ALL_TETROMINOES) (i : Int) :
    t.rotated (i % (t.rotations.length : Int)) = t.rotated i ∧
    t.rotated (i + 4) = t.rotated i ∧
    tetO.rotated i = tetO.rotated 0 := by
  have hO : tetO.rotated i = tetO.rotated 0 := by
    unfold Tetromino.rotated
    norm_num [tetO]
  refine ⟨rotated_emod t i, ?_, hO⟩
  fin_cases ht <;> exact rotated_add_four _ i (by decide)

/-- C8 witness: the theorem applied to the I piece at index 5. -/
theorem claim_C8_witness :
    tetI.rotated (5 % (tetI.rotations.length : Int)) = tetI.rotated 5 ∧
    tetI.rotated (5 + 4) = tetI.rotated 5 ∧
    tetO.rotated 5 = tetO.rotated 0 :=
  claim_C8 tetI (by decide) 5

/-! ## Claims C9 and C10: the persistence collaborator -/

/-- Overwriting the value stored under a present key is visible to lookup. -/
theorem lookupProfile_updateProfile (ps : List (String × Profile))
    (name : String) (p p' : Profile) (h : lookupProfile ps name = some p) :
    lookupProfile (updateProfile ps name p') name = some p' := by
  induction ps with
  | nil => simp [lookupProfile] at h
  | cons kv rest ih =>
    by_cases hk : (kv.1 == name) = true
    · unfold lookupProfile updateProfile
      rw [List.map_cons, List.find?_cons, if_pos hk]
      dsimp only
      simp only [hk]
      rfl
    · have hkf : (kv.1 == name) = false := by simpa using hk
      unfold lookupProfile at h
      rw [List.find?_cons] at h
      simp only [hkf] at h
      unfold lookupProfile updateProfile
      rw [List.map_cons, List.find?_cons]
      simp only [hkf, Bool.false_eq_true, if_false]
      exact ih h

/-- The `best_score` update `if score > best: best = score` is the maximum. -/
theorem best_score_max (best score : Int) :
    (if best < score then score else best) = max best score := by
  rcases lt_or_ge best score with h | h
  · rw [if_pos h, max_eq_right (le_of_lt h)]
  · rw [if_neg (not_lt.mpr h), max_eq_left h]

/-- C9: `record_game` on an unknown profile fails and leaves the document
unchanged; on a known profile it succeeds, bumps `games_played` by one,
raises `best_score` to the maximum of the old best and the new score,
stamps `last_played`, and appends exactly one score entry with that
profile name, score and line count. -/
theorem claim_C9 (store : ProfileStore) (name : String) (score lines : Int)
    (now : String) :
    (store.get_profile name = none →
      (store.record_game name score lines now).2.isSome = true ∧
      (store.record_game name score lines now).1 = store) ∧
    (∀ p, store.get_profile name = some p →
      (store.record_game name score lines now).2 = none ∧
      (store.record_game name score lines now).1.get_profile name =
        some { p with
          games_played := p.games_played + 1
          last_played := some now
          best_score := max p.best_score score } ∧
      (store.record_game name score lines now).1.scores =
        store.scores ++
          [{ profile := name, score := score, lines := lines, played_at := now }]) := by
  constructor
  · intro h
    unfold ProfileStore.record_game
    rw [h]
    exact ⟨rfl, rfl⟩
  · intro p hp
    unfold ProfileStore.record_game
    rw [hp]
    refine ⟨rfl, ?_, rfl⟩
    show lookupProfile (updateProfile store.profiles name _) name = _
    rw [lookupProfile_updateProfile store.profiles name p _ hp]
    rw [best_score_max]

/-- C9 witness: on a document holding only "Alice", recording for the
unknown "Bob" fails without touching the document, and recording for
"Alice" succeeds with the promised updates. -/
theorem claim_C9_witness :
    ((aliceStore.record_game "Bob" 10 2 "t1").2.isSome = true ∧
      (aliceStore.record_game "Bob" 10 2 "t1").1 = aliceStore) ∧
    ((aliceStore.record_game "Alice" 10 2 "t1").2 = none ∧
      (aliceStore.record_game "Alice" 10 2 "t1").1.get_profile "Alice" =
        some { aliceProfile with
          games_played := aliceProfile.games_played + 1
          last_played := some "t1"
          best_score := max aliceProfile.best_score 10 } ∧
      (aliceStore.record_game "Alice" 10 2 "t1").1.scores =
        aliceStore.scores ++
          [{ profile := "Alice", score := 10, lines := 2, played_at := "t1" }]) :=
  ⟨(claim_C9 aliceStore "Bob" 10 2 "t1").1 (by decide),
    (claim_C9 aliceStore "Alice" 10 2 "t1").2 aliceProfile (by decide)⟩

/-! ## Claim C4: `clear_full_lines` -/

/-- A list splits into the elements satisfying a Boolean predicate and
those satisfying its negation. -/
theorem countP_not_bool {α : Type} (l : List α) (p : α → Bool) :
    l.length = l.countP p + l.countP (fun a => !p a) := by
  rw [List.length_eq_countP_add_countP (p := p)]
  congr 1
  apply List.countP_congr
  intro x _
  cases p x <;> simp

/-- C4: `clear_full_lines` returns the number of rows with no empty cell;
the new grid is that many all-empty rows prepended to the non-full rows in
their original order; and when no row is full the board is returned
unchanged. (The hypothesis is the `Board.__post_init__` shape invariant:
the grid has exactly `height` rows.) -/
theorem claim_C4 (b : Board) (h : b.grid.length = b.height) :
    (b.clear_full_lines).2
      = b.grid.countP (fun row => !(row.any fun cell => cell.isNone)) ∧
    (b.clear_full_lines).1.grid
      = List.replicate (b.clear_full_lines).2 (List.replicate b.width (none : Cell))
        ++ b.grid.filter (fun row => row.any fun cell => cell.isNone) ∧
    ((b.clear_full_lines).2 = 0 → (b.clear_full_lines).1 = b) := by
  have hsum := countP_not_bool b.grid (fun row => row.any fun cell => cell.isNone)
  have hflen : (b.grid.filter (fun row => row.any fun cell => cell.isNone)).length
      = b.grid.countP (fun row => row.any fun cell => cell.isNone) :=
    (List.countP_eq_length_filter _ _).symm
  have hcleared :
      b.height - (b.grid.filter (fun row => row.any fun cell => cell.isNone)).length
        = b.grid.countP (fun row => !(row.any fun cell => cell.isNone)) := by
    omega
  unfold Board.clear_full_lines
  by_cases h0 :
      b.height - (b.grid.filter (fun row => row.any fun cell => cell.isNone)).length = 0
  · rw [if_neg (not_not_intro h0)]
    have hcount0 : b.grid.countP (fun row => !(row.any fun cell => cell.isNone)) = 0 := by
      omega
    have hall : ∀ row ∈ b.grid, (row.any fun cell => cell.isNone) = true := by
      intro row hr
      have hx := List.countP_eq_zero.mp hcount0 row hr
      simpa using hx
    refine ⟨by omega, ?_, fun _ => rfl⟩
    show b.grid = List.replicate
        (b.height - (b.grid.filter (fun row => row.any fun cell => cell.isNone)).length)
        (List.replicate b.width (none : Cell))
      ++ b.grid.filter (fun row => row.any fun cell => cell.isNone)
    rw [h0, List.replicate_zero, List.nil_append]
    exact (List.filter_eq_self.mpr hall).symm
  · rw [if_pos h0]
    exact ⟨hcleared, by rw [hcleared], fun hz => absurd hz h0⟩

/-- C4 witness: a 2×2 board with exactly one full row. -/
theorem claim_C4_witness :
    (bC4.clear_full_lines).2
      = bC4.grid.countP (fun row => !(row.any fun cell => cell.isNone)) ∧
    (bC4.clear_full_lines).1.grid
      = List.replicate (bC4.clear_full_lines).2
          (List.replicate bC4.width (none : Cell))
        ++ bC4.grid.filter (fun row => row.any fun cell => cell.isNone) :=
  ⟨(claim_C4 bC4 (by decide)).1, (claim_C4 bC4 (by decide)).2.1⟩

/-! ## Claim C6: the spawn algorithm -/

/-- Refilling the bag touches only `bag` and `rng`. -/
theorem refill_bag_fields (g : Game) :
    (g.refill_bag).board = g.board ∧
    (g.refill_bag).score_manager = g.score_manager ∧
    (g.refill_bag).active = g.active ∧
    (g.refill_bag).game_over = g.game_over := by
  unfold Game.refill_bag
  split
  · split <;> exact ⟨rfl, rfl, rfl, rfl⟩
  · exact ⟨rfl, rfl, rfl, rfl⟩

/-- Drawing from the bag touches only `bag` and `rng`. -/
theorem draw_from_bag_fields (g : Game) :
    (g.draw_from_bag).2.board = g.board ∧
    (g.draw_from_bag).2.score_manager = g.score_manager ∧
    (g.draw_from_bag).2.active = g.active ∧
    (g.draw_from_bag).2.game_over = g.game_over := by
  obtain ⟨h1, h2, h3, h4⟩ := refill_bag_fields g
  unfold Game.draw_from_bag
  dsimp only
  split
  · exact ⟨h1, h2, h3, h4⟩
  · exact ⟨h1, h2, h3, h4⟩

/-- Drawing the next piece touches only the supply state. -/
theorem next_tetromino_fields (g : Game) :
    (g.next_tetromino).2.board = g.board ∧
    (g.next_tetromino).2.score_manager = g.score_manager ∧
    (g.next_tetromino).2.active = g.active ∧
    (g.next_tetromino).2.game_over = g.game_over := by
  unfold Game.next_tetromino
  split
  · split
    · exact ⟨rfl, rfl, rfl, rfl⟩
    · exact ⟨rfl, rfl, rfl, rfl⟩
  · exact draw_from_bag_fields g

/-- Spawning never changes the board or the score state. -/
theorem spawn_fields (g : Game) :
    (g.spawn_next_piece).board = g.board ∧
    (g.spawn_next_piece).score_manager = g.score_manager := by
  have hf := next_tetromino_fields g
  unfold Game.spawn_next_piece
  rcases hnt : g.next_tetromino with ⟨o, g2⟩
  rw [hnt] at hf
  cases o
  · exact ⟨hf.1, hf.2.1⟩
  · dsimp only
    split
    · exact ⟨hf.1, hf.2.1⟩
    · exact ⟨hf.1, hf.2.1⟩

/-- C6: when a shape is drawn, spawning builds its rotation-0 state at
`(width / 2, 0)` (floor division); the board is never modified; if that
placement is illegal the game transitions to game over with no active
piece; otherwise the built piece becomes active. -/
theorem claim_C6 (g : Game) (t : Tetromino) (g' : Game)
    (h : g.next_tetromino = (some t, g')) :
    (g.spawn_next_piece).board = g.board ∧
    (g'.board.can_place (ActivePiece.blocks
        { state := t.rotated 0
          origin := (((g'.board.width / 2 : Nat) : Int), 0) }) = false →
      (g.spawn_next_piece).game_over = true ∧
      (g.spawn_next_piece).active = none) ∧
    (g'.board.can_place (ActivePiece.blocks
        { state := t.rotated 0
          origin := (((g'.board.width / 2 : Nat) : Int), 0) }) = true →
      (g.spawn_next_piece).active = some
        { state := t.rotated 0
          origin := (((g'.board.width / 2 : Nat) : Int), 0) }) := by
  refine ⟨(spawn_fields g).1, ?_, ?_⟩ <;>
    intro hcp <;>
    unfold Game.spawn_next_piece <;>
    rw [h] <;>
    dsimp only <;>
    simp only [hcp, Bool.not_false, Bool.not_true, if_true, Bool.false_eq_true, if_false]
  trivial

/-- C6 witness: spawning one O piece onto the board whose top-center cell
is occupied immediately yields game over, no active piece, and an
unmodified board. -/
theorem claim_C6_witness :
    (c6Game.spawn_next_piece).game_over = true ∧
    (c6Game.spawn_next_piece).active = none ∧
    (c6Game.spawn_next_piece).board = c6Game.board := by
  have hdraw : c6Game.next_tetromino = (some tetO, c6GameDrawn) := by decide
  have hcp : c6GameDrawn.board.can_place (ActivePiece.blocks
      { state := tetO.rotated 0
        origin := (((c6GameDrawn.board.width / 2 : Nat) : Int), 0) }) = false := by
    decide
  obtain ⟨hb, hfail, _⟩ := claim_C6 c6Game tetO c6GameDrawn hdraw
  obtain ⟨h1, h2⟩ := hfail hcp
  exact ⟨h1, h2, hb⟩

/-! ## Claim C2: gravity ticks and the score -/

/-- C2 counterexample: on the started 4×3 game the gravity tick's downward
move succeeds, yet the score grows from 0 to 1 — `tick` routes through
`move(0, 1)`, which credits the soft-drop bonus. -/
theorem claim_C2_counterexample :
    (cexGame.move 0 1).2 = true ∧
    cexGame.score_manager.score = 0 ∧
    cexGame.tick.score_manager.score = 1 := by
  decide

/-- C2 amended: a gravity tick whose downward move succeeds increases the
score by exactly 1 — the soft-drop bonus credited inside `move(0, 1)`. -/
theorem claim_C2_amended (g : Game) (h : (g.move 0 1).2 = true) :
    g.tick.score_manager.score = g.score_manager.score + 1 := by
  obtain ⟨hA, hO⟩ := move_success_guard g 0 1 h
  unfold Game.tick
  have hg : (g.active.isNone || g.game_over) = false := by
    rcases hx : g.active with _ | a
    · rw [hx] at hA; cases hA
    · simp [hx, hO]
  rw [hg]
  simp only [Bool.false_eq_true, if_false]
  rcases hm : g.move 0 1 with ⟨g', b⟩
  have hb : b = true := by rw [hm] at h; exact h
  subst hb
  have hs := move_one_score g h
  rw [hm] at hs
  exact hs

/-- C2 witness: the amended theorem applied to the concrete 4×3 game. -/
theorem claim_C2_amended_witness :
    cexGame.tick.score_manager.score = cexGame.score_manager.score + 1 :=
  claim_C2_amended cexGame (by decide)

/-! ## Claim C1: hard-drop scoring -/

/-- The hard-drop bonus for a non-negative distance is `2 × distance`. -/
theorem add_hard_drop_score (s : ScoreManager) (d : Nat) :
    (s.add_hard_drop (d : Int)).score = s.score + 2 * (d : Int) := by
  unfold ScoreManager.add_hard_drop
  rcases Nat.eq_zero_or_pos d with hd | hd
  · subst hd
    rw [if_pos (by norm_num)]
    norm_num
  · have hdi : (0 : Int) < (d : Int) := by exact_mod_cast hd
    rw [if_neg (not_le.mpr hdi), hard_drop_bonus]
    ring

/-- The hard-drop loop: the counter only grows, each counted step adds one
soft-drop point, and the board and game-over flag never change. -/
theorem hard_drop_loop_facts (fuel : Nat) : ∀ (g : Game) (c : Nat),
    c ≤ (Game.hard_drop_loop fuel g c).2 ∧
    (Game.hard_drop_loop fuel g c).1.score_manager.score
      = g.score_manager.score
        + ((Game.hard_drop_loop fuel g c).2 : Int) - (c : Int) ∧
    (Game.hard_drop_loop fuel g c).1.board = g.board ∧
    (Game.hard_drop_loop fuel g c).1.game_over = g.game_over := by
  induction fuel with
  | zero =>
    intro g c
    unfold Game.hard_drop_loop
    exact ⟨le_refl c, by ring, rfl, rfl⟩
  | succ n ih =>
    intro g c
    unfold Game.hard_drop_loop
    rcases hm : g.move 0 1 with ⟨g', b⟩
    cases b
    · dsimp only
      exact ⟨le_refl c, by ring, rfl, rfl⟩
    · dsimp only
      obtain ⟨h1, h2, h3, h4⟩ := ih g' (c + 1)
      have hsc := move_one_score g (by rw [hm])
      rw [hm] at hsc
      have hbd := move_board g 0 1
      rw [hm] at hbd
      have hgo := move_game_over g 0 1
      rw [hm] at hgo
      refine ⟨by omega, ?_, by rw [h3, hbd], by rw [h4, hgo]⟩
      rw [h2, hsc]
      push_cast
      ring

/-- `record_line_clear(0)` gains nothing: only the streak resets. -/
theorem record_line_clear_zero (s : ScoreManager) :
    s.record_line_clear ((0 : Nat) : Int) = ({ s with combo_streak := 0 }, 0) := by
  unfold ScoreManager.record_line_clear
  rw [if_pos (by norm_num)]

/-- Locking a piece whose lock clears no lines leaves the score unchanged
(the streak resets, the piece is written to the board, the next piece
spawns — none of which award points). -/
theorem lock_piece_score_noclear (g : Game) (a : ActivePiece)
    (hA : g.active = some a)
    (hl : ((g.board.lock_piece a.blocks a.state.tetromino.name).clear_full_lines).2 = 0) :
    g.lock_piece.score_manager.score = g.score_manager.score := by
  unfold Game.lock_piece
  rw [hA]
  dsimp only
  rcases hcf : (g.board.lock_piece a.blocks a.state.tetromino.name).clear_full_lines
    with ⟨b2, L⟩
  have hL : L = 0 := by rw [hcf] at hl; exact hl
  subst hL
  dsimp only
  rw [record_line_clear_zero]
  dsimp only
  rw [(spawn_fields _).2]

/-- C1 counterexample: on the started 4×3 game the hard drop travels 1
cell and its lock clears no lines, yet the score grows from 0 to 3 — each
cell traveled is credited the soft-drop bonus inside `move(0, 1)` on top
of the 2-point hard-drop bonus, so the gain is 3, not 2×1 = 2. -/
theorem claim_C1_counterexample :
    (Game.hard_drop_loop (cexGame.board.height + 4) cexGame 0).2 = 1 ∧
    cexGame.hard_drop.score_manager.total_lines = 0 ∧
    cexGame.score_manager.score = 0 ∧
    cexGame.hard_drop.score_manager.score = 3 := by
  decide

/-- C1 amended: a hard drop from the `PieceActive` state that travels `d`
cells and whose lock clears no lines increases the score by exactly
`3 × d`: the 2-points-per-cell hard-drop bonus plus the 1-point-per-cell
soft-drop bonus that the loop's `move(0, 1)` steps credit. -/
theorem claim_C1_amended (g : Game) (a : ActivePiece)
    (hO : g.game_over = false)
    (hA : g.active.isSome = true)
    (hact : (Game.hard_drop_loop (g.board.height + 4) g 0).1.active = some a)
    (hl : (((Game.hard_drop_loop (g.board.height + 4) g 0).1.board.lock_piece
        a.blocks a.state.tetromino.name).clear_full_lines).2 = 0) :
    g.hard_drop.score_manager.score
      = g.score_manager.score
        + 3 * ((Game.hard_drop_loop (g.board.height + 4) g 0).2 : Int) := by
  unfold Game.hard_drop
  have hg : (g.active.isNone || g.game_over) = false := by
    rcases hx : g.active with _ | a'
    · rw [hx] at hA; cases hA
    · simp [hx, hO]
  rw [hg]
  simp only [Bool.false_eq_true, if_false]
  obtain ⟨hle, hsc, hbd, hgo⟩ := hard_drop_loop_facts (g.board.height + 4) g 0
  rcases hloop : Game.hard_drop_loop (g.board.height + 4) g 0 with ⟨g1, d⟩
  rw [hloop] at hact hl hle hsc hbd hgo
  dsimp only at hact hl hle hsc hbd hgo ⊢
  have hlock := lock_piece_score_noclear
    { g1 with score_manager := g1.score_manager.add_hard_drop (d : Int) } a hact hl
  rw [hlock]
  show (g1.score_manager.add_hard_drop (d : Int)).score
    = g.score_manager.score + 3 * (d : Int)
  rw [add_hard_drop_score]
  omega

/-- C1 witness: the amended theorem applied to the concrete 4×3 game,
where the drop distance is 1 and the score grows by 3. -/
theorem claim_C1_amended_witness :
    cexGame.hard_drop.score_manager.score
      = cexGame.score_manager.score
        + 3 * ((Game.hard_drop_loop (cexGame.board.height + 4) cexGame 0).2 : Int) :=
  claim_C1_amended cexGame cexActive (by decide) (by decide) (by decide) (by decide)

/-! ## Claim C7: a piece is never active in the game-over state -/

/-- Spawning from a not-yet-over state re-establishes the invariant: both
failure arms discard the active piece, and the success arm keeps the
game-over flag false. -/
theorem spawn_inv (g : Game) (h : g.game_over = false) :
    GameInv (g.spawn_next_piece) := by
  have hf := next_tetromino_fields g
  unfold Game.spawn_next_piece
  rcases hnt : g.next_tetromino with ⟨o, g2⟩
  rw [hnt] at hf
  cases o
  · intro _; rfl
  · dsimp only
    split
    · intro _; rfl
    · intro hx
      have hx' : g2.game_over = true := hx
      rw [hf.2.2.2, h] at hx'
      cases hx'

/-- `start` re-establishes the invariant. -/
theorem start_inv (g : Game) (p : Option String) : GameInv (g.start p) := by
  unfold Game.start
  exact spawn_inv _ rfl

/-- `move` preserves the invariant. -/
theorem move_inv (g : Game) (dx dy : Int) (h : GameInv g) :
    GameInv ((g.move dx dy).1) := by
  intro hx
  rw [move_game_over] at hx
  have ha := h hx
  rw [move_active_none g dx dy ha]
  exact ha

/-- `rotate` never changes the game-over flag. -/
theorem rotate_game_over (g : Game) (cw : Bool) :
    (g.rotate cw).1.game_over = g.game_over := by
  unfold Game.rotate
  cases g.active
  · rfl
  · dsimp only
    split
    · rfl
    · split <;> split <;> rfl

/-- With no active piece, `rotate` fails immediately. -/
theorem rotate_active_none (g : Game) (cw : Bool) (h : g.active = none) :
    g.rotate cw = (g, false) := by
  unfold Game.rotate
  rw [h]

/-- `rotate` preserves the invariant. -/
theorem rotate_inv (g : Game) (cw : Bool) (h : GameInv g) :
    GameInv ((g.rotate cw).1) := by
  intro hx
  rw [rotate_game_over] at hx
  have ha := h hx
  rw [rotate_active_none g cw ha]
  exact ha

/-- `lock_piece` re-establishes the invariant: the invariant of the
pre-state forces the game not to be over while a piece is active, and the
final spawn is covered by `spawn_inv`. -/
theorem lock_inv (g : Game) (h : GameInv g) : GameInv (g.lock_piece) := by
  unfold Game.lock_piece
  rcases hact : g.active with _ | a
  · exact h
  · have hgo : g.game_over = false := by
      cases hb : g.game_over
      · rfl
      · rw [h hb] at hact; cases hact
    dsimp only
    rcases hcf : (g.board.lock_piece a.blocks a.state.tetromino.name).clear_full_lines
      with ⟨b2, L⟩
    dsimp only
    rcases hrc : g.score_manager.record_line_clear ((L : Nat) : Int) with ⟨sm, gained⟩
    dsimp only
    exact spawn_inv _ hgo

/-- `tick` preserves the invariant. -/
theorem tick_inv (g : Game) (h : GameInv g) : GameInv (g.tick) := by
  unfold Game.tick
  split
  · exact h
  · rcases hm : g.move 0 1 with ⟨g', b⟩
    cases b
    · dsimp only
      rcases move_cases g 0 1 with hc | hc
      · rw [hm] at hc
        have hg' : g' = g := by
          injection hc with h1 h2
        rw [hg']
        exact lock_inv g h
      · rw [hm] at hc
        cases hc
    · dsimp only
      have hmi := move_inv g 0 1 h
      rw [hm] at hmi
      exact hmi

/-- `hard_drop` preserves the invariant. -/
theorem hard_drop_inv (g : Game) (h : GameInv g) : GameInv (g.hard_drop) := by
  unfold Game.hard_drop
  split
  · exact h
  · rename_i hguard
    have hgo : g.game_over = false := by
      cases hb : g.game_over
      · rfl
      · exact absurd (by rw [hb]; simp) hguard
    obtain ⟨hle, hsc, hbd, hgo1⟩ := hard_drop_loop_facts (g.board.height + 4) g 0
    rcases hloop : Game.hard_drop_loop (g.board.height + 4) g 0 with ⟨g1, d⟩
    rw [hloop] at hgo1
    dsimp only at hgo1 ⊢
    apply lock_inv
    intro hx
    have hx' : g1.game_over = true := hx
    rw [hgo1, hgo] at hx'
    cases hx'

/-- `finalize` preserves the invariant (it only touches the score state). -/
theorem finalize_inv (g : Game) (now : String) (h : GameInv g) :
    GameInv (g.finalize now) := by
  unfold Game.finalize
  split
  · intro hx
    exact h hx
  · exact h

/-- Every operation preserves the invariant. -/
theorem apply_inv (g : Game) (op : Op) (h : GameInv g) :
    GameInv (g.apply op) := by
  cases op with
  | start p => exact start_inv g p
  | move dx dy => exact move_inv g dx dy h
  | rotate cw => exact rotate_inv g cw h
  | tick => exact tick_inv g h
  | hardDrop => exact hard_drop_inv g h
  | lockPiece => exact lock_inv g h
  | finalize now => exact finalize_inv g now h

/-- Any run of operations preserves the invariant. -/
theorem run_inv (ops : List Op) : ∀ (g : Game), GameInv g → GameInv (g.run ops) := by
  induction ops with
  | nil => intro g h; exact h
  | cons op rest ih =>
    intro g h
    exact ih (g.apply op) (apply_inv g op h)

/-- C7: in every state reachable from a freshly constructed game by any
sequence of `start`, `move`, `rotate`, `tick`, `hard_drop`, `lock_piece`
and `finalize` operations, the game-over state has no active piece. -/
theorem claim_C7 (board : Board) (sm : ScoreManager)
    (seq : Option (List Tetromino)) (rng : List (List Tetromino))
    (ops : List Op)
    (h : ((Game.init board sm seq rng).run ops).game_over = true) :
    ((Game.init board sm seq rng).run ops).active = none := by
  have hinit : GameInv (Game.init board sm seq rng) := by
    intro hx
    cases hx
  exact run_inv ops (Game.init board sm seq rng) hinit h

/-- C7 witness: a scripted one-piece game hard-dropped to exhaustion ends
in game over, and the theorem yields the absence of an active piece. -/
theorem claim_C7_witness :
    ((Game.init (Board.make 4 3) {} (some [tetO]) []).run
        [Op.start none, Op.hardDrop]).active = none :=
  claim_C7 (Board.make 4 3) {} (some [tetO]) [] [Op.start none, Op.hardDrop]
    (by decide)

/-- C10: a successful `create_profile(name)` both appends the new profile
record and overwrites the document's `active_profile` field with `name`. -/
theorem claim_C10 (store : ProfileStore) (name now : String)
    (h : lookupProfile store.profiles name = none) :
    (store.create_profile name now).2 = none ∧
    (store.create_profile name now).1.active_profile = some name ∧
    (store.create_profile name now).1.profiles
      = store.profiles ++ [(name, { name := name, created_at := now })] := by
  unfold ProfileStore.create_profile
  rw [h]
  exact ⟨rfl, rfl, rfl⟩

/-- C10 witness: creating "Alice" in an empty document activates her. -/
theorem claim_C10_witness :
    (({} : ProfileStore).create_profile "Alice" "t0").2 = none ∧
    (({} : ProfileStore).create_profile "Alice" "t0").1.active_profile
      = some "Alice" ∧
    (({} : ProfileStore).create_profile "Alice" "t0").1.profiles
      = ({} : ProfileStore).profiles
        ++ [("Alice", { name := "Alice", created_at := "t0" })] :=
  claim_C10 {} "Alice" "t0" (by decide)

end Tetris
